import Mathlib

/-!
Shallow embedding of the FDM-Diabetes-Risk-Predictor application (src/app.py).

The program has two parts the specification talks about:

* the Feature Encoder: the Streamlit widgets (lines 76-236 of app.py) and the
  assembly of the 19-element `feature_list` (lines 244-249);
* the Model Invoker: `load_model` (lines 41-48, decorated `@st.cache_resource`)
  and `predict` (lines 50-54).

Python values flowing into the feature list are either floats (the selectbox
codes `0.0` / `1.0`, the BMI number input, the `gen_health` slider whose
options are `[1.0, ..., 5.0]`) or ints (the `mental_health` / `phys_health`
sliders, and the `age` / `education` / `income` select-sliders whose options
are `range` objects of ints).  We model a Python number as a tagged value so
that the float/int distinction of the source is preserved; floats carry a
rational (no arithmetic is ever performed on them, they are only moved
around, so this is exact).
-/

namespace DiabetesApp

/-- A Python numeric value as it appears in the feature list: either a
float literal/widget value or an int widget value. -/
inductive PyVal where
  | float (q : ℚ)
  | int (n : ℤ)
deriving DecidableEq, Repr

/-- Whether a value is a Python float. -/
def PyVal.isFloat : PyVal → Bool
  | .float _ => true
  | .int _ => false

/-- Options of every Yes/No `st.selectbox` in app.py:
`options=[("No", 0.0), ("Yes", 1.0)]`; the code keeps component `[1]`. -/
def binaryOptions : List (String × PyVal) :=
  [("No", PyVal.float 0), ("Yes", PyVal.float 1)]

/-- Options of the Sex `st.selectbox`:
`options=[("Female", 0.0), ("Male", 1.0)]`; the code keeps component `[1]`. -/
def sexOptions : List (String × PyVal) :=
  [("Female", PyVal.float 0), ("Male", PyVal.float 1)]

/-- Options of the Age `st.select_slider`: `list(range(1, 14))`. -/
def ageOptions : List ℤ := [1, 2, 3, 4, 5, 6, 7, 8, 9, 10, 11, 12, 13]

/-- Options of the Education `st.select_slider`: `list(range(1, 7))`. -/
def educationOptions : List ℤ := [1, 2, 3, 4, 5, 6]

/-- Options of the Income `st.select_slider`: `list(range(1, 9))`. -/
def incomeOptions : List ℤ := [1, 2, 3, 4, 5, 6, 7, 8]

/-- Options of the General Health `st.select_slider`:
`options=[1.0, 2.0, 3.0, 4.0, 5.0]` (Python floats). -/
def genHealthOptions : List ℚ := [1, 2, 3, 4, 5]

/-- The value the code extracts from a Yes/No selectbox: component `[1]`
of the selected option tuple. -/
def binaryValue (sel : Fin 2) : PyVal :=
  (binaryOptions.get ⟨sel.val, sel.isLt⟩).2

/-- The value the code extracts from the Sex selectbox: component `[1]`
of the selected option tuple. -/
def sexValue (sel : Fin 2) : PyVal :=
  (sexOptions.get ⟨sel.val, sel.isLt⟩).2

/-- A complete set of UI selections, one field per widget in app.py.
Selectbox fields are an index into the widget's option list; the sliders
for mental/physical health have widget-enforced domain 0..30 (min_value=0,
max_value=30), modelled as `Fin 31`; BMI is a float from a number input
(widget-clamped to [18.0, 50.0], a bound no encoder step depends on). -/
structure Selections where
  bmi : ℚ
  highBP : Fin 2
  highChol : Fin 2
  cholCheck : Fin 2
  stroke : Fin 2
  heartDisease : Fin 2
  physActivity : Fin 2
  fruits : Fin 2
  veggies : Fin 2
  smoker : Fin 2
  alcohol : Fin 2
  diffWalk : Fin 2
  sex : Fin 2
  age : Fin 13
  education : Fin 6
  income : Fin 8
  genHealth : Fin 5
  mentalHealth : Fin 31
  physHealth : Fin 31

/-- The value of the Age select-slider: the selected option of
`list(range(1, 14))`, a Python int. -/
def ageValue (s : Selections) : ℤ :=
  ageOptions.get ⟨s.age.val, s.age.isLt⟩

/-- The value of the Education select-slider: the selected option of
`list(range(1, 7))`, a Python int. -/
def educationValue (s : Selections) : ℤ :=
  educationOptions.get ⟨s.education.val, s.education.isLt⟩

/-- The value of the Income select-slider: the selected option of
`list(range(1, 9))`, a Python int. -/
def incomeValue (s : Selections) : ℤ :=
  incomeOptions.get ⟨s.income.val, s.income.isLt⟩

/-- The value of the General Health select-slider: the selected option of
`[1.0, 2.0, 3.0, 4.0, 5.0]`, a Python float. -/
def genHealthValue (s : Selections) : ℚ :=
  genHealthOptions.get ⟨s.genHealth.val, s.genHealth.isLt⟩

/-- The Feature Encoder: the `feature_list` assembled at app.py lines
244-249, in the exact order written in the source:
`[high_bp, high_chol, chol_check, bmi, smoker, stroke, heart_disease,
phys_activity, fruits, veggies, alcohol, gen_health, mental_health,
phys_health, diff_walk, sex, age, education, income]`. -/
def featureList (s : Selections) : List PyVal :=
  [ binaryValue s.highBP,
    binaryValue s.highChol,
    binaryValue s.cholCheck,
    PyVal.float s.bmi,
    binaryValue s.smoker,
    binaryValue s.stroke,
    binaryValue s.heartDisease,
    binaryValue s.physActivity,
    binaryValue s.fruits,
    binaryValue s.veggies,
    binaryValue s.alcohol,
    PyVal.float (genHealthValue s),
    PyVal.int s.mentalHealth.val,
    PyVal.int s.physHealth.val,
    binaryValue s.diffWalk,
    sexValue s.sex,
    PyVal.int (ageValue s),
    PyVal.int (educationValue s),
    PyVal.int (incomeValue s) ]

/-!
The Model Invoker.  The model artifact is external: the spec treats it as an
opaque object exposing one capability, `predict(batch) -> sequence of labels`.
We model it as a function from a batch of feature lists to a list of integer
labels.  `load_model` (app.py lines 41-48) opens `predictor.pickle` and
unpickles it inside `try: ... except FileNotFoundError: return None` — only
a missing file is caught; any other exception raised by `open` or
`pickle.load` (a corrupt/unreadable artifact: `pickle.UnpicklingError`,
`PermissionError`, ...) propagates out of the call.  We model the state of
the artifact file and represent an escaping Python exception with `Except`.
-/

/-- The opaque pre-trained model: its single capability is a batch
classification call. -/
structure Model where
  predictBatch : List (List PyVal) → List ℤ

/-- A Python exception that escapes the Invoker (only `FileNotFoundError`
is caught by `load_model`). -/
inductive PyError where
  | unpicklingError
  | indexError
deriving DecidableEq, Repr

/-- The state of the `predictor.pickle` artifact on disk: absent, present
but unreadable/corrupt, or present and well-formed (deserializing to `m`). -/
inductive ArtifactState where
  | missing
  | corrupt
  | present (m : Model)

/-- `load_model` (app.py lines 41-48), as a function of the artifact state:
a missing file raises `FileNotFoundError`, which the `except` clause turns
into `None`; a corrupt/unreadable file raises some other exception, which
escapes; a well-formed file deserializes to the model object. -/
def load_model : ArtifactState → Except PyError (Option Model)
  | .missing => .ok none
  | .corrupt => .error .unpicklingError
  | .present m => .ok (some m)

/-- Python `seq[0]`: the first element, or an `IndexError` if the sequence
is empty. -/
def pyFirst (labels : List ℤ) : Except PyError ℤ :=
  match labels with
  | [] => .error .indexError
  | l :: _ => .ok l

/-- `predict` (app.py lines 50-54), as a function of the artifact state:
`model = load_model(); if model is None: return None;
return model.predict([feature_list])[0]`. -/
def predict (fs : ArtifactState) (feature_list : List PyVal) :
    Except PyError (Option ℤ) :=
  match load_model fs with
  | .error e => .error e
  | .ok none => .ok none
  | .ok (some m) =>
    match pyFirst (m.predictBatch [feature_list]) with
    | .error e => .error e
    | .ok l => .ok (some l)

/-!
The caching behaviour of `@st.cache_resource` on `load_model`: the body runs
at most once per process; its return value (including `None`) is cached and
every later call returns the cached object.  An exception escaping the body
is not cached.  We model this as an explicit state machine over the cache
state, stepped once per `load_model` call.
-/

/-- The cache state of the Invoker: `unloaded` before the first call,
`loaded m` after a successful deserialization (the cached instance `m`),
`loadFailed` after `load_model` returned `None` (missing artifact,
the cached `None`). -/
inductive InvokerState where
  | unloaded
  | loaded (m : Model)
  | loadFailed

/-- One call of the cached `load_model`: in state `unloaded` the body runs
against the artifact and its result is cached; in states `loaded`/`loadFailed`
the cached result is returned without touching the artifact. -/
def invokerStep (fs : ArtifactState) :
    InvokerState → Except PyError (InvokerState × Option Model)
  | .unloaded =>
    match load_model fs with
    | .error e => .error e
    | .ok none => .ok (.loadFailed, none)
    | .ok (some m) => .ok (.loaded m, some m)
  | .loaded m => .ok (.loaded m, some m)
  | .loadFailed => .ok (.loadFailed, none)

/-- `predict` threaded through the cache state: one `load_model` call,
then the `None` check and the batch inference of app.py lines 50-54. -/
def predictStep (fs : ArtifactState) (st : InvokerState)
    (feature_list : List PyVal) :
    Except PyError (InvokerState × Option ℤ) :=
  match invokerStep fs st with
  | .error e => .error e
  | .ok (st1, none) => .ok (st1, none)
  | .ok (st1, some m) =>
    match pyFirst (m.predictBatch [feature_list]) with
    | .error e => .error e
    | .ok l => .ok (st1, some l)

/-- Two consecutive `predict` calls with the same feature list, threading
the cache state; returns the final state and both results. -/
def callTwice (fs : ArtifactState) (st : InvokerState)
    (feature_list : List PyVal) :
    Except PyError (InvokerState × Option ℤ × Option ℤ) :=
  match predictStep fs st feature_list with
  | .error e => .error e
  | .ok (st1, r1) =>
    match predictStep fs st1 feature_list with
    | .error e => .error e
    | .ok (st2, r2) => .ok (st2, r1, r2)

/-!
Concrete inputs used by the spec's worked example and by witnesses, and
single-field updaters for the frame property.
-/

/-- The spec §8 worked example: BMI = 25.0, HighBP = Yes, all other binary
fields = No, Sex = Male, GenHealth = 3 (option `3.0`, index 2),
MentHlth = 0, PhysHlth = 0, Age bucket 3 ("30-34", index 2),
Education = 4 (index 3), Income = 5 (index 4). -/
def exampleSel : Selections where
  bmi := 25
  highBP := 1
  highChol := 0
  cholCheck := 0
  stroke := 0
  heartDisease := 0
  physActivity := 0
  fruits := 0
  veggies := 0
  smoker := 0
  alcohol := 0
  diffWalk := 0
  sex := 1
  age := 2
  education := 3
  income := 4
  genHealth := 2
  mentalHealth := 0
  physHealth := 0

/-- A concrete deterministic model that labels every row `1`, used to
witness Invoker theorems. -/
def constOneModel : Model where
  predictBatch := fun batch => batch.map (fun _ => 1)

/-- Update only the HighBP selection. -/
def setHighBP (s : Selections) (v : Fin 2) : Selections := { s with highBP := v }

/-- Update only the HighChol selection. -/
def setHighChol (s : Selections) (v : Fin 2) : Selections := { s with highChol := v }

/-- Update only the CholCheck selection. -/
def setCholCheck (s : Selections) (v : Fin 2) : Selections := { s with cholCheck := v }

/-- Update only the BMI input. -/
def setBmi (s : Selections) (v : ℚ) : Selections := { s with bmi := v }

/-- Update only the Smoker selection. -/
def setSmoker (s : Selections) (v : Fin 2) : Selections := { s with smoker := v }

/-- Update only the Stroke selection. -/
def setStroke (s : Selections) (v : Fin 2) : Selections := { s with stroke := v }

/-- Update only the HeartDiseaseOrAttack selection. -/
def setHeartDisease (s : Selections) (v : Fin 2) : Selections := { s with heartDisease := v }

/-- Update only the PhysActivity selection. -/
def setPhysActivity (s : Selections) (v : Fin 2) : Selections := { s with physActivity := v }

/-- Update only the Fruits selection. -/
def setFruits (s : Selections) (v : Fin 2) : Selections := { s with fruits := v }

/-- Update only the Veggies selection. -/
def setVeggies (s : Selections) (v : Fin 2) : Selections := { s with veggies := v }

/-- Update only the HvyAlcoholConsump selection. -/
def setAlcohol (s : Selections) (v : Fin 2) : Selections := { s with alcohol := v }

/-- Update only the GenHealth selection. -/
def setGenHealth (s : Selections) (v : Fin 5) : Selections := { s with genHealth := v }

/-- Update only the MentHlth slider. -/
def setMentalHealth (s : Selections) (v : Fin 31) : Selections := { s with mentalHealth := v }

/-- Update only the PhysHlth slider. -/
def setPhysHealth (s : Selections) (v : Fin 31) : Selections := { s with physHealth := v }

/-- Update only the DiffWalk selection. -/
def setDiffWalk (s : Selections) (v : Fin 2) : Selections := { s with diffWalk := v }

/-- Update only the Sex selection. -/
def setSex (s : Selections) (v : Fin 2) : Selections := { s with sex := v }

/-- Update only the Age selection. -/
def setAge (s : Selections) (v : Fin 13) : Selections := { s with age := v }

/-- Update only the Education selection. -/
def setEducation (s : Selections) (v : Fin 6) : Selections := { s with education := v }

/-- Update only the Income selection. -/
def setIncome (s : Selections) (v : Fin 8) : Selections := { s with income := v }

/-- Default value handed to `List.getD` when reading feature positions;
every read in the theorems below is in range, so it is never returned. -/
def dV : PyVal := PyVal.float 0

/-- Every Yes/No selectbox value is exactly the float `0.0` or the float
`1.0`. -/
theorem binaryValue_eq_zero_or_one (b : Fin 2) :
    binaryValue b = PyVal.float 0 ∨ binaryValue b = PyVal.float 1 := by
  fin_cases b <;> simp [binaryValue, binaryOptions]

/-- The Sex selectbox value is exactly the float `0.0` or the float
`1.0`. -/
theorem sexValue_eq_zero_or_one (b : Fin 2) :
    sexValue b = PyVal.float 0 ∨ sexValue b = PyVal.float 1 := by
  fin_cases b <;> simp [sexValue, sexOptions]

/-- Yes/No selectbox values are Python floats. -/
theorem binaryValue_isFloat (b : Fin 2) : (binaryValue b).isFloat = true := by
  fin_cases b <;> rfl

/-- The Sex selectbox value is a Python float. -/
theorem sexValue_isFloat (b : Fin 2) : (sexValue b).isFloat = true := by
  fin_cases b <;> rfl

/-- The Age option value lies in 1..13. -/
theorem ageValue_range (s : Selections) :
    1 ≤ ageValue s ∧ ageValue s ≤ 13 := by
  have h : ∀ i : Fin 13, 1 ≤ ageOptions.get ⟨i.val, i.isLt⟩ ∧
      ageOptions.get ⟨i.val, i.isLt⟩ ≤ 13 := by decide
  exact h s.age

/-- The Education option value lies in 1..6. -/
theorem educationValue_range (s : Selections) :
    1 ≤ educationValue s ∧ educationValue s ≤ 6 := by
  have h : ∀ i : Fin 6, 1 ≤ educationOptions.get ⟨i.val, i.isLt⟩ ∧
      educationOptions.get ⟨i.val, i.isLt⟩ ≤ 6 := by decide
  exact h s.education

/-- The Income option value lies in 1..8. -/
theorem incomeValue_range (s : Selections) :
    1 ≤ incomeValue s ∧ incomeValue s ≤ 8 := by
  have h : ∀ i : Fin 8, 1 ≤ incomeOptions.get ⟨i.val, i.isLt⟩ ∧
      incomeOptions.get ⟨i.val, i.isLt⟩ ≤ 8 := by decide
  exact h s.income

/-- The GenHealth option value lies in 1..5. -/
theorem genHealthValue_range (s : Selections) :
    1 ≤ genHealthValue s ∧ genHealthValue s ≤ 5 := by
  have h : ∀ i : Fin 5, 1 ≤ genHealthOptions.get ⟨i.val, i.isLt⟩ ∧
      genHealthOptions.get ⟨i.val, i.isLt⟩ ≤ 5 := by decide
  exact h s.genHealth

/-- C1: for every valid combination of UI selections, the Encoder produces a
19-element feature vector whose positions follow exactly the fixed order of
spec §3: HighBP, HighChol, CholCheck, BMI, Smoker, Stroke,
HeartDiseaseOrAttack, PhysActivity, Fruits, Veggies, HvyAlcoholConsump,
GenHealth, MentHlth, PhysHlth, DiffWalk, Sex, Age, Education, Income —
regardless of which fields the user changed. -/
theorem claim_C1_feature_order (s : Selections) :
    (featureList s).length = 19 ∧
    (featureList s).getD 0 dV = binaryValue s.highBP ∧
    (featureList s).getD 1 dV = binaryValue s.highChol ∧
    (featureList s).getD 2 dV = binaryValue s.cholCheck ∧
    (featureList s).getD 3 dV = PyVal.float s.bmi ∧
    (featureList s).getD 4 dV = binaryValue s.smoker ∧
    (featureList s).getD 5 dV = binaryValue s.stroke ∧
    (featureList s).getD 6 dV = binaryValue s.heartDisease ∧
    (featureList s).getD 7 dV = binaryValue s.physActivity ∧
    (featureList s).getD 8 dV = binaryValue s.fruits ∧
    (featureList s).getD 9 dV = binaryValue s.veggies ∧
    (featureList s).getD 10 dV = binaryValue s.alcohol ∧
    (featureList s).getD 11 dV = PyVal.float (genHealthValue s) ∧
    (featureList s).getD 12 dV = PyVal.int s.mentalHealth.val ∧
    (featureList s).getD 13 dV = PyVal.int s.physHealth.val ∧
    (featureList s).getD 14 dV = binaryValue s.diffWalk ∧
    (featureList s).getD 15 dV = sexValue s.sex ∧
    (featureList s).getD 16 dV = PyVal.int (ageValue s) ∧
    (featureList s).getD 17 dV = PyVal.int (educationValue s) ∧
    (featureList s).getD 18 dV = PyVal.int (incomeValue s) :=
  ⟨rfl, rfl, rfl, rfl, rfl, rfl, rfl, rfl, rfl, rfl, rfl,
   rfl, rfl, rfl, rfl, rfl, rfl, rfl, rfl, rfl⟩

/-- C2: for BMI = 25.0, HighBP = Yes, all other binary fields = No,
GenHealth = 3, MentHlth = 0, PhysHlth = 0, Age bucket = 3, Education = 4,
Income = 5, Sex = Male, the Encoder produces exactly the vector
`[1.0, 0.0, 0.0, 25.0, 0.0, 0.0, 0.0, 0.0, 0.0, 0.0, 0.0, 3.0, 0, 0, 0.0,
1.0, 3, 4, 5]` (floats and ints as written). -/
theorem claim_C2_example_vector :
    featureList exampleSel =
      [PyVal.float 1, PyVal.float 0, PyVal.float 0, PyVal.float 25,
       PyVal.float 0, PyVal.float 0, PyVal.float 0, PyVal.float 0,
       PyVal.float 0, PyVal.float 0, PyVal.float 0, PyVal.float 3,
       PyVal.int 0, PyVal.int 0, PyVal.float 0, PyVal.float 1,
       PyVal.int 3, PyVal.int 4, PyVal.int 5] := by
  decide

/-- C3: for every binary field (HighBP, HighChol, CholCheck, Smoker,
Stroke, HeartDiseaseOrAttack, PhysActivity, Fruits, Veggies,
HvyAlcoholConsump, DiffWalk, Sex) and for every possible selection of that
field, the encoded value is exactly `0.0` or exactly `1.0`, never any other
value. -/
theorem claim_C3_binary_fields (s : Selections) :
    ((featureList s).getD 0 dV = PyVal.float 0 ∨ (featureList s).getD 0 dV = PyVal.float 1) ∧
    ((featureList s).getD 1 dV = PyVal.float 0 ∨ (featureList s).getD 1 dV = PyVal.float 1) ∧
    ((featureList s).getD 2 dV = PyVal.float 0 ∨ (featureList s).getD 2 dV = PyVal.float 1) ∧
    ((featureList s).getD 4 dV = PyVal.float 0 ∨ (featureList s).getD 4 dV = PyVal.float 1) ∧
    ((featureList s).getD 5 dV = PyVal.float 0 ∨ (featureList s).getD 5 dV = PyVal.float 1) ∧
    ((featureList s).getD 6 dV = PyVal.float 0 ∨ (featureList s).getD 6 dV = PyVal.float 1) ∧
    ((featureList s).getD 7 dV = PyVal.float 0 ∨ (featureList s).getD 7 dV = PyVal.float 1) ∧
    ((featureList s).getD 8 dV = PyVal.float 0 ∨ (featureList s).getD 8 dV = PyVal.float 1) ∧
    ((featureList s).getD 9 dV = PyVal.float 0 ∨ (featureList s).getD 9 dV = PyVal.float 1) ∧
    ((featureList s).getD 10 dV = PyVal.float 0 ∨ (featureList s).getD 10 dV = PyVal.float 1) ∧
    ((featureList s).getD 14 dV = PyVal.float 0 ∨ (featureList s).getD 14 dV = PyVal.float 1) ∧
    ((featureList s).getD 15 dV = PyVal.float 0 ∨ (featureList s).getD 15 dV = PyVal.float 1) :=
  ⟨binaryValue_eq_zero_or_one s.highBP,
   binaryValue_eq_zero_or_one s.highChol,
   binaryValue_eq_zero_or_one s.cholCheck,
   binaryValue_eq_zero_or_one s.smoker,
   binaryValue_eq_zero_or_one s.stroke,
   binaryValue_eq_zero_or_one s.heartDisease,
   binaryValue_eq_zero_or_one s.physActivity,
   binaryValue_eq_zero_or_one s.fruits,
   binaryValue_eq_zero_or_one s.veggies,
   binaryValue_eq_zero_or_one s.alcohol,
   binaryValue_eq_zero_or_one s.diffWalk,
   sexValue_eq_zero_or_one s.sex⟩

/-- C4, counterexample: the claim says that a missing *or unreadable*
artifact makes `predict` return null with no escaping exception; but
`load_model` catches only `FileNotFoundError`, so with an unreadable/corrupt
artifact the unpickling exception escapes the `predict` call on the concrete
§8 example vector instead of yielding null. -/
theorem claim_C4_counterexample :
    predict ArtifactState.corrupt (featureList exampleSel) =
      Except.error PyError.unpicklingError := rfl

/-- C4, amended: if the model artifact is *missing* at load time
(`FileNotFoundError`), then for every input feature vector `predict`
returns `None` and no exception escapes the call; an artifact that is
present but unreadable instead raises an uncaught exception. -/
theorem claim_C4_missing_artifact (feature_list : List PyVal) :
    predict ArtifactState.missing feature_list = Except.ok none := rfl

/-- C5: when the model is loaded, `predict` wraps the feature vector into a
single-row batch, calls the underlying model's batch prediction on it, and
returns the first element of the returned sequence with no transformation:
whenever the model returns `l` as first label for the one-row batch `[v]`,
the Invoker's result is exactly `l` (so label `1` yields exactly `1`). -/
theorem claim_C5_first_label (m : Model) (feature_list : List PyVal)
    (l : ℤ) (rest : List ℤ)
    (h : m.predictBatch [feature_list] = l :: rest) :
    predict (ArtifactState.present m) feature_list = Except.ok (some l) := by
  simp [predict, load_model, pyFirst, h]

/-- C5, witness: a concrete constant-1 model and the §8 example vector —
the model's first label for the one-row batch is `1`, and the Invoker
returns exactly `1`. -/
theorem claim_C5_witness :
    predict (ArtifactState.present constOneModel) (featureList exampleSel) =
      Except.ok (some 1) :=
  claim_C5_first_label constOneModel (featureList exampleSel) 1 [] rfl

/-- C6: the cached Invoker is a two-terminal-state machine: from `unloaded`,
a present artifact deserializes once and moves to `loaded m`, a missing one
moves to `loadFailed`; in state `loaded m` every later call returns the same
cached instance `m` without touching the artifact (the step no longer
depends on the artifact state, so the artifact is deserialized at most
once); in state `loadFailed` every later `predict` call returns null; and
no successful step ever produces the `unloaded` state again. -/
theorem claim_C6_state_machine (fs : ArtifactState) (m : Model)
    (feature_list : List PyVal) :
    invokerStep (ArtifactState.present m) InvokerState.unloaded =
      Except.ok (InvokerState.loaded m, some m) ∧
    invokerStep ArtifactState.missing InvokerState.unloaded =
      Except.ok (InvokerState.loadFailed, none) ∧
    invokerStep fs (InvokerState.loaded m) =
      Except.ok (InvokerState.loaded m, some m) ∧
    invokerStep fs InvokerState.loadFailed =
      Except.ok (InvokerState.loadFailed, none) ∧
    predictStep fs InvokerState.loadFailed feature_list =
      Except.ok (InvokerState.loadFailed, none) :=
  ⟨rfl, rfl, rfl, rfl, rfl⟩

/-- C7, counterexample: the claim says every element of every produced
feature vector is a float, but position 13 (MentHlth, index 12) of the §8
example vector is the Python int `0`, not a float — the mental/physical
health sliders and the age/education/income select-sliders produce ints. -/
theorem claim_C7_counterexample :
    ((featureList exampleSel).getD 12 dV).isFloat = false := by decide

/-- C7, amended: in every FeatureVector produced by the Encoder, positions
1-12 and 15-16 (the eleven Yes/No fields, BMI, GenHealth, DiffWalk, Sex)
carry Python floats, while positions 13, 14, 17, 18, 19 (MentHlth,
PhysHlth, Age, Education, Income) carry Python ints. -/
theorem claim_C7_element_kinds (s : Selections) :
    ((featureList s).getD 0 dV).isFloat = true ∧
    ((featureList s).getD 1 dV).isFloat = true ∧
    ((featureList s).getD 2 dV).isFloat = true ∧
    ((featureList s).getD 3 dV).isFloat = true ∧
    ((featureList s).getD 4 dV).isFloat = true ∧
    ((featureList s).getD 5 dV).isFloat = true ∧
    ((featureList s).getD 6 dV).isFloat = true ∧
    ((featureList s).getD 7 dV).isFloat = true ∧
    ((featureList s).getD 8 dV).isFloat = true ∧
    ((featureList s).getD 9 dV).isFloat = true ∧
    ((featureList s).getD 10 dV).isFloat = true ∧
    ((featureList s).getD 11 dV).isFloat = true ∧
    ((featureList s).getD 12 dV).isFloat = false ∧
    ((featureList s).getD 13 dV).isFloat = false ∧
    ((featureList s).getD 14 dV).isFloat = true ∧
    ((featureList s).getD 15 dV).isFloat = true ∧
    ((featureList s).getD 16 dV).isFloat = false ∧
    ((featureList s).getD 17 dV).isFloat = false ∧
    ((featureList s).getD 18 dV).isFloat = false :=
  ⟨binaryValue_isFloat s.highBP, binaryValue_isFloat s.highChol,
   binaryValue_isFloat s.cholCheck, rfl,
   binaryValue_isFloat s.smoker, binaryValue_isFloat s.stroke,
   binaryValue_isFloat s.heartDisease, binaryValue_isFloat s.physActivity,
   binaryValue_isFloat s.fruits, binaryValue_isFloat s.veggies,
   binaryValue_isFloat s.alcohol, rfl, rfl, rfl,
   binaryValue_isFloat s.diffWalk, sexValue_isFloat s.sex,
   rfl, rfl, rfl⟩

/-- C8: ordinal and count fields are passed into the vector unmodified
(the stored position equals the widget's selected option value) and always
lie in their documented ranges: Age in 1-13, Education in 1-6, Income in
1-8, GenHealth in 1-5, and MentHlth and PhysHlth are integer day-counts in
[0, 30]. -/
theorem claim_C8_ordinal_ranges (s : Selections) :
    (featureList s).getD 16 dV = PyVal.int (ageValue s) ∧
      1 ≤ ageValue s ∧ ageValue s ≤ 13 ∧
    (featureList s).getD 17 dV = PyVal.int (educationValue s) ∧
      1 ≤ educationValue s ∧ educationValue s ≤ 6 ∧
    (featureList s).getD 18 dV = PyVal.int (incomeValue s) ∧
      1 ≤ incomeValue s ∧ incomeValue s ≤ 8 ∧
    (featureList s).getD 11 dV = PyVal.float (genHealthValue s) ∧
      1 ≤ genHealthValue s ∧ genHealthValue s ≤ 5 ∧
    (featureList s).getD 12 dV = PyVal.int s.mentalHealth.val ∧
      s.mentalHealth.val ≤ 30 ∧
    (featureList s).getD 13 dV = PyVal.int s.physHealth.val ∧
      s.physHealth.val ≤ 30 :=
  ⟨rfl, (ageValue_range s).1, (ageValue_range s).2,
   rfl, (educationValue_range s).1, (educationValue_range s).2,
   rfl, (incomeValue_range s).1, (incomeValue_range s).2,
   rfl, (genHealthValue_range s).1, (genHealthValue_range s).2,
   rfl, Nat.lt_succ_iff.mp s.mentalHealth.isLt,
   rfl, Nat.lt_succ_iff.mp s.physHealth.isLt⟩

/-- C9: against the same loaded (deterministic) model, calling `predict`
twice with the identical feature vector yields the identical label both
times: both calls return `some l` for the model's first label `l`, and the
cache state is unchanged (if the model returns an empty label sequence the
first call already raises, so no two differing results can be observed). -/
theorem claim_C9_idempotent (fs : ArtifactState) (m : Model)
    (feature_list : List PyVal) :
    callTwice fs (InvokerState.loaded m) feature_list =
      match m.predictBatch [feature_list] with
      | [] => Except.error PyError.indexError
      | l :: _ => Except.ok (InvokerState.loaded m, some l, some l) := by
  cases h : m.predictBatch [feature_list] <;>
    simp [callTwice, predictStep, invokerStep, pyFirst, h]

/-- C10: changing exactly one UI field changes the feature vector only at
the single position assigned to that field in the §3 order: for every
field, removing that field's position from the vectors of the original and
the updated selections leaves the remaining 18 positions identical. -/
theorem claim_C10_single_field_frame (s : Selections) :
    (∀ v, (featureList (setHighBP s v)).eraseIdx 0 = (featureList s).eraseIdx 0) ∧
    (∀ v, (featureList (setHighChol s v)).eraseIdx 1 = (featureList s).eraseIdx 1) ∧
    (∀ v, (featureList (setCholCheck s v)).eraseIdx 2 = (featureList s).eraseIdx 2) ∧
    (∀ v, (featureList (setBmi s v)).eraseIdx 3 = (featureList s).eraseIdx 3) ∧
    (∀ v, (featureList (setSmoker s v)).eraseIdx 4 = (featureList s).eraseIdx 4) ∧
    (∀ v, (featureList (setStroke s v)).eraseIdx 5 = (featureList s).eraseIdx 5) ∧
    (∀ v, (featureList (setHeartDisease s v)).eraseIdx 6 = (featureList s).eraseIdx 6) ∧
    (∀ v, (featureList (setPhysActivity s v)).eraseIdx 7 = (featureList s).eraseIdx 7) ∧
    (∀ v, (featureList (setFruits s v)).eraseIdx 8 = (featureList s).eraseIdx 8) ∧
    (∀ v, (featureList (setVeggies s v)).eraseIdx 9 = (featureList s).eraseIdx 9) ∧
    (∀ v, (featureList (setAlcohol s v)).eraseIdx 10 = (featureList s).eraseIdx 10) ∧
    (∀ v, (featureList (setGenHealth s v)).eraseIdx 11 = (featureList s).eraseIdx 11) ∧
    (∀ v, (featureList (setMentalHealth s v)).eraseIdx 12 = (featureList s).eraseIdx 12) ∧
    (∀ v, (featureList (setPhysHealth s v)).eraseIdx 13 = (featureList s).eraseIdx 13) ∧
    (∀ v, (featureList (setDiffWalk s v)).eraseIdx 14 = (featureList s).eraseIdx 14) ∧
    (∀ v, (featureList (setSex s v)).eraseIdx 15 = (featureList s).eraseIdx 15) ∧
    (∀ v, (featureList (setAge s v)).eraseIdx 16 = (featureList s).eraseIdx 16) ∧
    (∀ v, (featureList (setEducation s v)).eraseIdx 17 = (featureList s).eraseIdx 17) ∧
    (∀ v, (featureList (setIncome s v)).eraseIdx 18 = (featureList s).eraseIdx 18) :=
  ⟨fun _ => rfl, fun _ => rfl, fun _ => rfl, fun _ => rfl, fun _ => rfl,
   fun _ => rfl, fun _ => rfl, fun _ => rfl, fun _ => rfl, fun _ => rfl,
   fun _ => rfl, fun _ => rfl, fun _ => rfl, fun _ => rfl, fun _ => rfl,
   fun _ => rfl, fun _ => rfl, fun _ => rfl, fun _ => rfl⟩

end DiabetesApp
